import Mathlib

/-
Shallow embedding of the coupon-management service (src/main.py).

Modelling conventions:
* Python floats (prices, discount values, spend amounts) are ℚ.
* Calendar dates are Int (only comparisons are used by the source).
* Counts (quantities, orders placed, usage counts, limits) are Nat.
* Optional fields are Option; Python truthiness of an optional value
  (None, 0, 0.0, False, empty list are all falsy) is reproduced at each
  use site, matching the source's `if field and violation:` guards.
* The global dicts `coupons` and `usage_counter` become insertion-ordered
  association lists inside `SysState`; route handlers become functions
  returning the (possibly updated) state together with their response.
* `date.today()` and the ledger lookup are side inputs of `eligible`,
  passed as explicit parameters.
-/

namespace CouponMgmt

inductive DiscountType where
  | FLAT
  | PERCENT
deriving DecidableEq

structure Eligibility where
  allowedUserTiers : Option (List String)
  minLifetimeSpend : Option ℚ
  minOrdersPlaced : Option Nat
  firstOrderOnly : Option Bool
  allowedCountries : Option (List String)
  minCartValue : Option ℚ
  applicableCategories : Option (List String)
  excludedCategories : Option (List String)
  minItemsCount : Option Nat
deriving DecidableEq

structure Coupon where
  code : String
  description : Option String
  discountType : DiscountType
  discountValue : ℚ
  maxDiscountAmount : Option ℚ
  startDate : Int
  endDate : Int
  usageLimitPerUser : Option Nat
  eligibility : Option Eligibility
deriving DecidableEq

structure UserContext where
  userId : String
  userTier : Option String
  country : Option String
  lifetimeSpend : ℚ
  ordersPlaced : Nat
deriving DecidableEq

structure CartItem where
  productId : String
  category : Option String
  unitPrice : ℚ
  quantity : Nat
deriving DecidableEq

structure Cart where
  items : List CartItem
deriving DecidableEq

/-- Source `cart_total`: sum of unitPrice * quantity over the items. -/
def cart_total (k : Cart) : ℚ :=
  (k.items.map (fun i => i.unitPrice * (i.quantity : ℚ))).sum

/-- Source `{i.category for i in cart.items}`: the category values of the
items, `none` included, as in the Python set of optionals.  Only
emptiness of intersections is ever consumed, for which a list is
interchangeable with a set. -/
def cart_categories (k : Cart) : List (Option String) :=
  k.items.map (fun i => i.category)

/-- Source `sum(i.quantity for i in cart.items)`. -/
def items_count (k : Cart) : Nat :=
  (k.items.map (fun i => i.quantity)).sum

/-- Python membership of an optional string in a list of strings:
`None in [strings]` is always False. -/
def optMem (o : Option String) (l : List String) : Bool :=
  match o with
  | some s => l.contains s
  | none => false

/-- Guard `if e.allowedUserTiers and user.userTier not in e.allowedUserTiers`. -/
def tierOk (e : Eligibility) (u : UserContext) : Bool :=
  match e.allowedUserTiers with
  | none => true
  | some ts => if ts = [] then true else optMem u.userTier ts

/-- Guard `if e.minLifetimeSpend and user.lifetimeSpend < e.minLifetimeSpend`. -/
def lifetimeOk (e : Eligibility) (u : UserContext) : Bool :=
  match e.minLifetimeSpend with
  | none => true
  | some m => if m = 0 then true else decide (m ≤ u.lifetimeSpend)

/-- Guard `if e.minOrdersPlaced and user.ordersPlaced < e.minOrdersPlaced`. -/
def ordersOk (e : Eligibility) (u : UserContext) : Bool :=
  match e.minOrdersPlaced with
  | none => true
  | some m => if m = 0 then true else decide (m ≤ u.ordersPlaced)

/-- Guard `if e.firstOrderOnly and user.ordersPlaced > 0`. -/
def firstOrderOk (e : Eligibility) (u : UserContext) : Bool :=
  match e.firstOrderOnly with
  | none => true
  | some b => if b then ! decide (0 < u.ordersPlaced) else true

/-- Guard `if e.allowedCountries and user.country not in e.allowedCountries`. -/
def countryOk (e : Eligibility) (u : UserContext) : Bool :=
  match e.allowedCountries with
  | none => true
  | some cs => if cs = [] then true else optMem u.country cs

/-- Guard `if e.minCartValue and total < e.minCartValue`. -/
def cartValueOk (e : Eligibility) (k : Cart) : Bool :=
  match e.minCartValue with
  | none => true
  | some m => if m = 0 then true else decide (m ≤ cart_total k)

/-- Guard `if e.applicableCategories and not categories.intersection(...)`. -/
def applicableOk (e : Eligibility) (k : Cart) : Bool :=
  match e.applicableCategories with
  | none => true
  | some cs => if cs = [] then true else (cart_categories k).any (fun o => optMem o cs)

/-- Guard `if e.excludedCategories and categories.intersection(...)`. -/
def excludedOk (e : Eligibility) (k : Cart) : Bool :=
  match e.excludedCategories with
  | none => true
  | some cs => if cs = [] then true else ! (cart_categories k).any (fun o => optMem o cs)

/-- Guard `if e.minItemsCount and sum(i.quantity ...) < e.minItemsCount`. -/
def itemsOk (e : Eligibility) (k : Cart) : Bool :=
  match e.minItemsCount with
  | none => true
  | some m => if m = 0 then true else decide (m ≤ items_count k)

/-- Conjunction of the nine configured-rule guards, in source order. -/
def rulesOk (e : Eligibility) (u : UserContext) (k : Cart) : Bool :=
  tierOk e u && lifetimeOk e u && ordersOk e u && firstOrderOk e u && countryOk e u &&
  cartValueOk e k && applicableOk e k && excludedOk e k && itemsOk e k

/-- Guard `if not (coupon.startDate <= today <= coupon.endDate)`. -/
def dateOk (c : Coupon) (today : Int) : Bool :=
  decide (c.startDate ≤ today ∧ today ≤ c.endDate)

/-- Guard `if coupon.usageLimitPerUser: ... if used >= limit`. -/
def usageOk (c : Coupon) (u : UserContext) (usage : String → String → Nat) : Bool :=
  match c.usageLimitPerUser with
  | none => true
  | some n => if n = 0 then true else decide (usage c.code u.userId < n)

/-- Source `eligible`: the early-return chain collapses to the conjunction
of the guards, in source order (date window, then each configured
eligibility rule when an Eligibility record is present, then usage limit). -/
def eligible (c : Coupon) (u : UserContext) (k : Cart) (today : Int)
    (usage : String → String → Nat) : Bool :=
  dateOk c today &&
  (match c.eligibility with
   | none => true
   | some e => rulesOk e u k) &&
  usageOk c u usage

/-- Source `get_discount`. -/
def get_discount (c : Coupon) (total : ℚ) : ℚ :=
  if c.discountType = DiscountType.FLAT then
    c.discountValue
  else
    let percent := c.discountValue / 100 * total
    match c.maxDiscountAmount with
    | none => percent
    | some m => if m = 0 then percent else min percent m

/-- One iteration of the `for c in coupons.values()` loop of `best_coupon`. -/
def selectStep (u : UserContext) (k : Cart) (today : Int)
    (usage : String → String → Nat) (total : ℚ)
    (best : Option Coupon × ℚ) (c : Coupon) : Option Coupon × ℚ :=
  if eligible c u k today usage then
    let disc := get_discount c total
    if best.2 < disc then (some c, disc) else best
  else best

/-- The selection loop of `best_coupon` over an enumeration of the catalog,
starting from best = None, best_discount = 0. -/
def selectBest (catalog : List Coupon) (u : UserContext) (k : Cart) (today : Int)
    (usage : String → String → Nat) : Option Coupon × ℚ :=
  catalog.foldl (selectStep u k today usage (cart_total k)) (none, 0)

/-- Keys of an insertion-ordered association list (a Python dict). -/
def dictKeys {α : Type} (m : List (String × α)) : List String :=
  m.map (fun p => p.1)

/-- Python `d.get(key)` / `key in d` on an association list. -/
def dictGet {α : Type} (m : List (String × α)) (key : String) : Option α :=
  match m with
  | [] => none
  | p :: rest => if p.1 = key then some p.2 else dictGet rest key

/-- Python `d[key] = v`: replace in place when the key is present, else
append, preserving insertion order. -/
def dictSet {α : Type} (m : List (String × α)) (key : String) (v : α) :
    List (String × α) :=
  match m with
  | [] => [(key, v)]
  | p :: rest => if p.1 = key then (key, v) :: rest else p :: dictSet rest key v

/-- The module-level mutable state: dicts `coupons` and `usage_counter`. -/
structure SysState where
  coupons : List (String × Coupon)
  usage_counter : List (String × List (String × Nat))
deriving DecidableEq

/-- Both dicts start empty. -/
def initState : SysState := ⟨[], []⟩

/-- Source `usage_counter.get(coupon.code, {}).get(user.userId, 0)`. -/
def ledgerLookup (s : SysState) (code userId : String) : Nat :=
  (dictGet ((dictGet s.usage_counter code).getD []) userId).getD 0

/-- Route `create_coupon`: the Bool is true on success; on the duplicate-code
path the handler raises before touching either dict, so the state comes
back unchanged. -/
def create_coupon (s : SysState) (c : Coupon) : SysState × Bool :=
  if (dictGet s.coupons c.code).isSome then (s, false)
  else (⟨dictSet s.coupons c.code c, dictSet s.usage_counter c.code []⟩, true)

/-- Route `list_all`: returns the catalog values; no state change occurs in
the handler body. -/
def list_all (s : SysState) : SysState × List Coupon :=
  (s, s.coupons.map (fun p => p.2))

/-- Route `best_coupon`: response is `none` for `{"coupon": None}`, else
`(code, discount, final_price)`. The handler only reads the dicts. -/
def best_coupon (s : SysState) (u : UserContext) (k : Cart) (today : Int) :
    SysState × Option (String × ℚ × ℚ) :=
  let total := cart_total k
  let r := selectBest (s.coupons.map (fun p => p.2)) u k today (ledgerLookup s)
  match r.1 with
  | none => (s, none)
  | some b => (s, some (b.code, r.2, total - r.2))

/-- States reachable from the empty initial state through the three routes. -/
inductive Reachable : SysState → Prop where
  | init : Reachable initState
  | create (s : SysState) (c : Coupon) : Reachable s → Reachable (create_coupon s c).1
  | listAll (s : SysState) : Reachable s → Reachable (list_all s).1
  | eval (s : SysState) (u : UserContext) (k : Cart) (today : Int) :
      Reachable s → Reachable (best_coupon s u k today).1

/-- Sample flat coupon, used by concrete witnesses. -/
def couponFlat5 : Coupon :=
  { code := "FLAT5", description := none, discountType := DiscountType.FLAT,
    discountValue := 5, maxDiscountAmount := none, startDate := 0, endDate := 10,
    usageLimitPerUser := none, eligibility := none }

/-- Sample percent coupon with a cap, used by concrete witnesses. -/
def couponPct20Cap15 : Coupon :=
  { code := "PCT20", description := none, discountType := DiscountType.PERCENT,
    discountValue := 20, maxDiscountAmount := some 15, startDate := 0, endDate := 10,
    usageLimitPerUser := none, eligibility := none }

/-- Percent coupon with a negative discount value, admissible in the data
model, on which the percent discount is strictly decreasing in the total. -/
def couponPctNeg : Coupon :=
  { code := "PCTNEG", description := none, discountType := DiscountType.PERCENT,
    discountValue := -100, maxDiscountAmount := none, startDate := 0, endDate := 10,
    usageLimitPerUser := none, eligibility := none }

/-- Sample user, used by concrete witnesses. -/
def userSample : UserContext :=
  { userId := "u1", userTier := none, country := none, lifetimeSpend := 0,
    ordersPlaced := 0 }

/-- Sample empty cart, used by concrete witnesses. -/
def cartEmpty : Cart := ⟨[]⟩

/-- Sample ledger lookup reporting zero uses everywhere. -/
def usageZero : String → String → Nat := fun _ _ => 0

/-- C3: eligible is false whenever today lies outside the inclusive window
[startDate, endDate], for any other inputs; and (for a nonempty window)
today equal to either endpoint passes the date-window check. -/
theorem date_window_inclusive (c : Coupon) (u : UserContext) (k : Cart)
    (today : Int) (g : String → String → Nat) :
    ((today < c.startDate ∨ c.endDate < today) → eligible c u k today g = false)
    ∧ (c.startDate ≤ c.endDate →
        dateOk c c.startDate = true ∧ dateOk c c.endDate = true) := by
  constructor
  · intro h
    have hd : dateOk c today = false := by
      simp only [dateOk, decide_eq_false_iff_not, not_and, not_le]
      omega
    simp [eligible, hd]
  · intro h
    constructor <;> · simp only [dateOk, decide_eq_true_eq] ; omega

/-- Witness for C3 at a concrete coupon with window [0, 10]. -/
theorem date_window_inclusive_w :
    eligible couponFlat5 userSample cartEmpty 20 usageZero = false
    ∧ dateOk couponFlat5 0 = true ∧ dateOk couponFlat5 10 = true :=
  ⟨(date_window_inclusive couponFlat5 userSample cartEmpty 20 usageZero).1
      (Or.inr (by decide)),
   (date_window_inclusive couponFlat5 userSample cartEmpty 20 usageZero).2
      (by decide)⟩

/-- C5: on a PERCENT coupon the discount is min(discountValue/100 * total,
maxDiscountAmount) when the cap is configured non-falsy, and the uncapped
discountValue/100 * total when the cap is absent or falsy (zero). -/
theorem percent_discount_cap (c : Coupon) (t : ℚ)
    (hp : c.discountType = DiscountType.PERCENT) :
    (∀ m, c.maxDiscountAmount = some m → m ≠ 0 →
        get_discount c t = min (c.discountValue / 100 * t) m)
    ∧ (c.maxDiscountAmount = none ∨ c.maxDiscountAmount = some 0 →
        get_discount c t = c.discountValue / 100 * t) := by
  constructor
  · intro m hm hm0
    simp [get_discount, hp, hm, hm0]
  · rintro (hm | hm) <;> simp [get_discount, hp, hm]

/-- Witness for C5: 20 percent of 100 capped at 15. -/
theorem percent_discount_cap_w :
    get_discount couponPct20Cap15 100 = min (20 / 100 * 100) 15 :=
  (percent_discount_cap couponPct20Cap15 100 rfl).1 15 rfl (by norm_num)

/-- C6 counterexample: the claim quantifies over every PERCENT coupon, but a
coupon with a negative discountValue (the data model does not exclude it)
makes the discount strictly decreasing: at totals 0 ≤ 1 the discount of
couponPctNeg falls from 0 to -1. -/
theorem percent_monotone_cex :
    couponPctNeg.discountType = DiscountType.PERCENT ∧ (0:ℚ) ≤ 1 ∧
    ¬ get_discount couponPctNeg 0 ≤ get_discount couponPctNeg 1 := by
  refine ⟨rfl, by norm_num, ?_⟩
  norm_num [get_discount, couponPctNeg]
  decide

/-- C6 (amended): for every PERCENT coupon with nonnegative discountValue,
the computed discount is monotone non-decreasing in the cart total, with or
without a configured cap. -/
theorem percent_monotone (c : Coupon) (t1 t2 : ℚ)
    (hp : c.discountType = DiscountType.PERCENT) (hv : 0 ≤ c.discountValue)
    (ht : t1 ≤ t2) : get_discount c t1 ≤ get_discount c t2 := by
  have h100 : 0 ≤ c.discountValue / 100 := by positivity
  have hbase : c.discountValue / 100 * t1 ≤ c.discountValue / 100 * t2 :=
    mul_le_mul_of_nonneg_left ht h100
  rcases hm : c.maxDiscountAmount with _ | m
  · simpa [get_discount, hp, hm] using hbase
  · by_cases hm0 : m = 0
    · simpa [get_discount, hp, hm, hm0] using hbase
    · simpa [get_discount, hp, hm, hm0] using min_le_min hbase le_rfl

/-- Witness for the amended C6 at totals 50 ≤ 100. -/
theorem percent_monotone_w :
    get_discount couponPct20Cap15 50 ≤ get_discount couponPct20Cap15 100 :=
  percent_monotone couponPct20Cap15 50 100 rfl (by norm_num [couponPct20Cap15])
    (by norm_num)

/-- C4: a rule field configured at its falsy sentinel (0 for the numeric
floors, false for firstOrderOnly, the empty list for the four set rules)
yields the same eligibility verdict as the same coupon with the field
absent, for all inputs. -/
theorem sentinel_as_absent (c : Coupon) (e : Eligibility) (u : UserContext)
    (k : Cart) (today : Int) (g : String → String → Nat) :
    (eligible { c with eligibility := some { e with minLifetimeSpend := some 0 } } u k today g
      = eligible { c with eligibility := some { e with minLifetimeSpend := none } } u k today g)
    ∧ (eligible { c with eligibility := some { e with minOrdersPlaced := some 0 } } u k today g
      = eligible { c with eligibility := some { e with minOrdersPlaced := none } } u k today g)
    ∧ (eligible { c with eligibility := some { e with minCartValue := some 0 } } u k today g
      = eligible { c with eligibility := some { e with minCartValue := none } } u k today g)
    ∧ (eligible { c with eligibility := some { e with minItemsCount := some 0 } } u k today g
      = eligible { c with eligibility := some { e with minItemsCount := none } } u k today g)
    ∧ (eligible { c with eligibility := some { e with firstOrderOnly := some false } } u k today g
      = eligible { c with eligibility := some { e with firstOrderOnly := none } } u k today g)
    ∧ (eligible { c with eligibility := some { e with allowedUserTiers := some [] } } u k today g
      = eligible { c with eligibility := some { e with allowedUserTiers := none } } u k today g)
    ∧ (eligible { c with eligibility := some { e with allowedCountries := some [] } } u k today g
      = eligible { c with eligibility := some { e with allowedCountries := none } } u k today g)
    ∧ (eligible { c with eligibility := some { e with applicableCategories := some [] } } u k today g
      = eligible { c with eligibility := some { e with applicableCategories := none } } u k today g)
    ∧ (eligible { c with eligibility := some { e with excludedCategories := some [] } } u k today g
      = eligible { c with eligibility := some { e with excludedCategories := none } } u k today g) := by
  refine ⟨?_, ?_, ?_, ?_, ?_, ?_, ?_, ?_, ?_⟩ <;>
    simp [eligible, rulesOk, tierOk, lifetimeOk, ordersOk, firstOrderOk,
      countryOk, cartValueOk, applicableOk, excludedOk, itemsOk, dateOk, usageOk]

/-- Eligibility record imposing only firstOrderOnly, for witnesses. -/
def eligFirstOrder : Eligibility :=
  { allowedUserTiers := none, minLifetimeSpend := none, minOrdersPlaced := none,
    firstOrderOnly := some true, allowedCountries := none, minCartValue := none,
    applicableCategories := none, excludedCategories := none, minItemsCount := none }

/-- Flat coupon gated on firstOrderOnly, for witnesses. -/
def couponFirstOrder : Coupon :=
  { code := "FIRST", description := none, discountType := DiscountType.FLAT,
    discountValue := 5, maxDiscountAmount := none, startDate := 0, endDate := 10,
    usageLimitPerUser := none, eligibility := some eligFirstOrder }

/-- Flat coupon with a per-user usage limit of 2, for witnesses. -/
def couponLimit2 : Coupon :=
  { code := "LIM2", description := none, discountType := DiscountType.FLAT,
    discountValue := 5, maxDiscountAmount := none, startDate := 0, endDate := 10,
    usageLimitPerUser := some 2, eligibility := none }

/-- Sample ledger lookup reporting one use everywhere. -/
def usageOne : String → String → Nat := fun _ _ => 1

/-- C7: for a coupon whose eligibility sets firstOrderOnly = true, when the
same coupon with that gate removed is eligible (date window and every other
configured rule pass), eligibility holds exactly for ordersPlaced = 0. -/
theorem first_order_only_iff (c : Coupon) (u : UserContext) (k : Cart)
    (today : Int) (g : String → String → Nat) (e : Eligibility)
    (he : c.eligibility = some e) (hf : e.firstOrderOnly = some true)
    (hrest : eligible { c with eligibility := some { e with firstOrderOnly := none } }
      u k today g = true) :
    (eligible c u k today g = true ↔ u.ordersPlaced = 0) := by
  simp only [eligible, rulesOk, dateOk, usageOk, tierOk, lifetimeOk, ordersOk,
    firstOrderOk, countryOk, cartValueOk, applicableOk, excludedOk, itemsOk,
    he, hf, if_true, Bool.and_eq_true, Bool.true_and, Bool.and_true,
    decide_eq_true_eq] at hrest ⊢
  obtain ⟨⟨hd, ⟨⟨⟨⟨⟨⟨⟨hT, hL⟩, hO⟩, hCo⟩, hCV⟩, hAP⟩, hEX⟩, hIT⟩⟩, hu⟩ := hrest
  constructor
  · rintro ⟨⟨-, ⟨⟨⟨⟨⟨⟨⟨⟨-, -⟩, -⟩, hFO⟩, -⟩, -⟩, -⟩, -⟩, -⟩⟩, -⟩
    simp at hFO
    omega
  · intro h0
    refine ⟨⟨hd, ⟨⟨⟨⟨⟨⟨⟨⟨hT, hL⟩, hO⟩, ?_⟩, hCo⟩, hCV⟩, hAP⟩, hEX⟩, hIT⟩⟩, hu⟩
    simp [h0]

/-- Witness for C7 at a concrete first-order coupon and a zero-order user. -/
theorem first_order_only_iff_w :
    eligible couponFirstOrder userSample cartEmpty 3 usageZero = true
      ↔ userSample.ordersPlaced = 0 :=
  first_order_only_iff couponFirstOrder userSample cartEmpty 3 usageZero
    eligFirstOrder rfl rfl (by decide)

/-- C2: for a coupon with a non-falsy usageLimitPerUser = N, when the same
coupon with the limit removed is eligible (date window and every configured
rule pass), eligibility holds exactly when the ledger count for
(code, userId) is < N — so it fails exactly at count ≥ N and still holds at
count N - 1. -/
theorem usage_limit_boundary (c : Coupon) (u : UserContext) (k : Cart)
    (today : Int) (g : String → String → Nat) (N : Nat)
    (hN : c.usageLimitPerUser = some N) (h0 : 0 < N)
    (hrest : eligible { c with usageLimitPerUser := none } u k today g = true) :
    (eligible c u k today g = true ↔ g c.code u.userId < N) := by
  have hN0 : ¬ N = 0 := by omega
  simp only [eligible, dateOk, usageOk, hN, hN0, if_false, Bool.and_eq_true,
    Bool.and_true, decide_eq_true_eq] at hrest ⊢
  constructor
  · rintro ⟨-, h⟩
    exact h
  · intro h
    exact ⟨hrest, h⟩

/-- Witness for C2: limit 2, count 1 = N - 1, eligibility holds. -/
theorem usage_limit_boundary_w :
    eligible couponLimit2 userSample cartEmpty 3 usageOne = true
      ↔ usageOne couponLimit2.code userSample.userId < 2 :=
  usage_limit_boundary couponLimit2 userSample cartEmpty 3 usageOne 2
    rfl (by decide) (by decide)

/-- Invariant of the selection loop: starting from any accumulator, either no
coupon ever beat it (and every eligible coupon's discount is bounded by the
accumulator's), or the fold returns the last coupon to strictly beat the
then-current best: every eligible coupon before the winner pays strictly
less, every eligible coupon after it pays at most as much. -/
lemma selectFold_spec (u : UserContext) (k : Cart) (today : Int)
    (g : String → String → Nat) (total : ℚ) (cs : List Coupon) :
    ∀ acc : Option Coupon × ℚ,
      (cs.foldl (selectStep u k today g total) acc = acc ∧
        ∀ x ∈ cs, eligible x u k today g = true → get_discount x total ≤ acc.2)
      ∨ (∃ l1 c l2, cs = l1 ++ c :: l2 ∧ eligible c u k today g = true ∧
          cs.foldl (selectStep u k today g total) acc = (some c, get_discount c total) ∧
          acc.2 < get_discount c total ∧
          (∀ x ∈ l1, eligible x u k today g = true →
            get_discount x total < get_discount c total) ∧
          (∀ x ∈ l2, eligible x u k today g = true →
            get_discount x total ≤ get_discount c total)) := by
  induction cs with
  | nil =>
    intro acc
    exact Or.inl ⟨rfl, by simp⟩
  | cons c0 rest ih =>
    intro acc
    by_cases he : eligible c0 u k today g = true
    · by_cases hlt : acc.2 < get_discount c0 total
      · have hstep : selectStep u k today g total acc c0
            = (some c0, get_discount c0 total) := by
          simp [selectStep, he, hlt]
        rcases ih (some c0, get_discount c0 total) with ⟨hfold, hbound⟩ |
          ⟨l1, c, l2, hsplit, helig, hfold, hgt, hl1, hl2⟩
        · refine Or.inr ⟨[], c0, rest, by simp, he, ?_, hlt, by simp, ?_⟩
          · simp only [List.foldl_cons, hstep, hfold]
          · intro x hx hex
            simpa using hbound x hx hex
        · refine Or.inr ⟨c0 :: l1, c, l2, by simp [hsplit], helig, ?_, ?_, ?_, hl2⟩
          · simp only [List.foldl_cons, hstep, hfold]
          · exact lt_trans hlt hgt
          · intro x hx hex
            rcases List.mem_cons.mp hx with rfl | hx'
            · exact hgt
            · exact hl1 x hx' hex
      · have hstep : selectStep u k today g total acc c0 = acc := by
          simp [selectStep, he, hlt]
        rcases ih acc with ⟨hfold, hbound⟩ |
          ⟨l1, c, l2, hsplit, helig, hfold, hgt, hl1, hl2⟩
        · refine Or.inl ⟨by simp only [List.foldl_cons, hstep, hfold], ?_⟩
          intro x hx hex
          rcases List.mem_cons.mp hx with rfl | hx'
          · exact le_of_not_lt hlt
          · exact hbound x hx' hex
        · refine Or.inr ⟨c0 :: l1, c, l2, by simp [hsplit], helig,
            by simp only [List.foldl_cons, hstep, hfold], hgt, ?_, hl2⟩
          intro x hx hex
          rcases List.mem_cons.mp hx with rfl | hx'
          · exact lt_of_le_of_lt (le_of_not_lt hlt) hgt
          · exact hl1 x hx' hex
    · have hstep : selectStep u k today g total acc c0 = acc := by
        simp [selectStep, he]
      rcases ih acc with ⟨hfold, hbound⟩ |
        ⟨l1, c, l2, hsplit, helig, hfold, hgt, hl1, hl2⟩
      · refine Or.inl ⟨by simp only [List.foldl_cons, hstep, hfold], ?_⟩
        intro x hx hex
        rcases List.mem_cons.mp hx with rfl | hx'
        · exact absurd hex he
        · exact hbound x hx' hex
      · refine Or.inr ⟨c0 :: l1, c, l2, by simp [hsplit], helig,
          by simp only [List.foldl_cons, hstep, hfold], hgt, ?_, hl2⟩
        intro x hx hex
        rcases List.mem_cons.mp hx with rfl | hx'
        · exact absurd hex he
        · exact hl1 x hx' hex

/-- C1: whenever the selector returns a coupon, its discount is strictly
positive (a discount of 0 or less never replaces the initial none-state with
best discount 0), the returned coupon is eligible and pays exactly the
returned amount, every eligible coupon enumerated before it pays strictly
less, and every eligible coupon enumerated after it pays at most as much —
so on identical discounts the first-enumerated coupon wins, by the strict
greater-than replacement test. -/
theorem selectBest_strict_first (cs : List Coupon) (u : UserContext) (k : Cart)
    (today : Int) (g : String → String → Nat) (c : Coupon) (d : ℚ)
    (h : selectBest cs u k today g = (some c, d)) :
    0 < d ∧ d = get_discount c (cart_total k) ∧ eligible c u k today g = true ∧
    ∃ l1 l2, cs = l1 ++ c :: l2 ∧
      (∀ x ∈ l1, eligible x u k today g = true →
        get_discount x (cart_total k) < d) ∧
      (∀ x ∈ l2, eligible x u k today g = true →
        get_discount x (cart_total k) ≤ d) := by
  rcases selectFold_spec u k today g (cart_total k) cs (none, 0) with ⟨hfold, -⟩ |
    ⟨l1, c', l2, hsplit, helig, hfold, hgt, hl1, hl2⟩
  · rw [selectBest, hfold] at h
    cases h
  · rw [selectBest, hfold] at h
    injection h with h1 h2
    injection h1 with h1
    subst h1
    subst h2
    exact ⟨hgt, rfl, helig, l1, l2, hsplit, hl1, hl2⟩

/-- Second flat coupon of the same value, for the tie-break witness. -/
def couponFlat5b : Coupon :=
  { code := "FLAT5B", description := none, discountType := DiscountType.FLAT,
    discountValue := 5, maxDiscountAmount := none, startDate := 0, endDate := 10,
    usageLimitPerUser := none, eligibility := none }

/-- Witness for C1 on a two-coupon tie: both pay 5, the first-enumerated one
is returned. -/
theorem selectBest_strict_first_w :
    0 < (5:ℚ) ∧ (5:ℚ) = get_discount couponFlat5 (cart_total cartEmpty) ∧
    eligible couponFlat5 userSample cartEmpty 3 usageZero = true ∧
    ∃ l1 l2, [couponFlat5, couponFlat5b] = l1 ++ couponFlat5 :: l2 ∧
      (∀ x ∈ l1, eligible x userSample cartEmpty 3 usageZero = true →
        get_discount x (cart_total cartEmpty) < 5) ∧
      (∀ x ∈ l2, eligible x userSample cartEmpty 3 usageZero = true →
        get_discount x (cart_total cartEmpty) ≤ 5) :=
  selectBest_strict_first [couponFlat5, couponFlat5b] userSample cartEmpty 3
    usageZero couponFlat5 5 (by decide)

/-- Looking a key up right after setting it yields the value just stored. -/
lemma dictGet_set_self {α : Type} (m : List (String × α)) (key : String) (v : α) :
    dictGet (dictSet m key v) key = some v := by
  induction m with
  | nil => simp [dictSet, dictGet]
  | cons p rest ih =>
    by_cases h : p.1 = key
    · simp [dictSet, dictGet, h]
    · simp [dictSet, dictGet, h, ih]

/-- Setting a key keeps the key list when the key is present and appends the
key when it is new. -/
lemma dictKeys_set {α : Type} (m : List (String × α)) (key : String) (v : α) :
    dictKeys (dictSet m key v) =
      if (dictGet m key).isSome then dictKeys m else dictKeys m ++ [key] := by
  induction m with
  | nil => simp [dictSet, dictGet, dictKeys]
  | cons p rest ih =>
    by_cases h : p.1 = key
    · simp [dictSet, dictGet, dictKeys, h]
    · by_cases h2 : (dictGet rest key).isSome
      · simp [dictSet, dictGet, dictKeys, h, h2] at ih ⊢
        exact ih
      · simp [dictSet, dictGet, dictKeys, h, h2] at ih ⊢
        exact ih

/-- The keys of an association list (dict) are exactly one entry each. -/
lemma dictKeys_cons {α : Type} (p : String × α) (rest : List (String × α)) :
    dictKeys (p :: rest) = p.1 :: dictKeys rest := rfl

/-- A lookup succeeds exactly when the key occurs in the key list. -/
lemma dictGet_isSome_iff {α : Type} (m : List (String × α)) (key : String) :
    (dictGet m key).isSome = true ↔ key ∈ dictKeys m := by
  induction m with
  | nil => simp [dictGet, dictKeys]
  | cons p rest ih =>
    by_cases h : p.1 = key
    · simp [dictGet, dictKeys_cons, h]
    · have h' : ¬ key = p.1 := fun hh => h hh.symm
      simp [dictGet, dictKeys_cons, h, h', ih]

/-- The list route hands the state back untouched. -/
lemma list_all_fst (s : SysState) : (list_all s).1 = s := rfl

/-- The evaluation route hands the state back untouched. -/
lemma best_coupon_fst (s : SysState) (u : UserContext) (k : Cart) (today : Int) :
    (best_coupon s u k today).1 = s := by
  cases hr : (selectBest (List.map (fun p => p.2) s.coupons) u k today
      (ledgerLookup s)).1 <;>
    simp [best_coupon, hr]

/-- C8: create_coupon signals the duplicate error exactly when the code is
already in the catalog; on the error path both dicts are unchanged (the
handler raises before the assignments); on success the coupon is stored
under its code and the usage-ledger entry for the code is the empty map. -/
theorem create_coupon_spec (s : SysState) (c : Coupon) :
    ((create_coupon s c).2 = false ↔ (dictGet s.coupons c.code).isSome = true)
    ∧ ((dictGet s.coupons c.code).isSome = true → (create_coupon s c).1 = s)
    ∧ ((dictGet s.coupons c.code).isSome = false →
        dictGet (create_coupon s c).1.coupons c.code = some c ∧
        dictGet (create_coupon s c).1.usage_counter c.code = some []) := by
  by_cases h : (dictGet s.coupons c.code).isSome
  · simp [create_coupon, h]
  · simp [create_coupon, h, dictGet_set_self]

/-- Witness for C8: creating a coupon in the empty state stores it and an
empty ledger entry. -/
theorem create_coupon_spec_w :
    dictGet (create_coupon initState couponFlat5).1.coupons couponFlat5.code
      = some couponFlat5 ∧
    dictGet (create_coupon initState couponFlat5).1.usage_counter couponFlat5.code
      = some [] :=
  (create_coupon_spec initState couponFlat5).2.2 rfl

/-- C9: the list and evaluate routes leave both the catalog and the usage
ledger exactly as they were, for every pre-state and request. -/
theorem reads_no_mutation (s : SysState) (u : UserContext) (k : Cart) (today : Int) :
    (list_all s).1.coupons = s.coupons
    ∧ (list_all s).1.usage_counter = s.usage_counter
    ∧ (best_coupon s u k today).1.coupons = s.coupons
    ∧ (best_coupon s u k today).1.usage_counter = s.usage_counter := by
  refine ⟨rfl, rfl, ?_, ?_⟩ <;> rw [best_coupon_fst]

/-- C10: in every state reachable from the empty initial state through the
three routes, the catalog and the usage ledger hold exactly the same keys —
an entry is created empty alongside each coupon, and only there. -/
theorem ledger_keys_eq_catalog_keys (s : SysState) (h : Reachable s) :
    dictKeys s.coupons = dictKeys s.usage_counter := by
  induction h with
  | init => rfl
  | create s c hs ih =>
    by_cases hc : (dictGet s.coupons c.code).isSome = true
    · simpa [create_coupon, hc] using ih
    · have hc2 : ¬ (dictGet s.usage_counter c.code).isSome = true := by
        rw [dictGet_isSome_iff, ← ih, ← dictGet_isSome_iff]
        exact hc
      simp [create_coupon, hc, dictKeys_set, hc2, ih]
  | listAll s hs ih => simpa [list_all] using ih
  | eval s u k today hs ih => simpa [best_coupon_fst] using ih

/-- Witness for C10 at the state reached by one successful creation. -/
theorem ledger_keys_eq_catalog_keys_w :
    dictKeys ((create_coupon initState couponFlat5).1.coupons)
      = dictKeys ((create_coupon initState couponFlat5).1.usage_counter) :=
  ledger_keys_eq_catalog_keys (create_coupon initState couponFlat5).1
    (Reachable.create initState couponFlat5 Reachable.init)

end CouponMgmt
